import Mathlib

/-!
Shallow embedding of the table-schema core of the repository: the table
definition model (src/database/structure.py), the DDL generator
(src/database/ddl_construct.py), the synthetic test-value generator and
insert-statement builder (src/data_constuct.py), and the table
construction pipeline (src/database/table_construct.py).

Machine strings are Lean `String`s; fields that can hold Python `None` are
`Option`s; Python truthiness of optional strings and integers is made
explicit by small helpers. Declared lengths and ordinals are non-negative
machine integers, modelled as `Nat`. Operations that can raise return
`Except String`.
-/

namespace MagiKit

/-- Truthiness of an optional string in Python: `None` and `""` are falsy. -/
def strTruthy : Option String → Bool
  | none => false
  | some s => !s.isEmpty

/-- Truthiness of an optional non-negative integer in Python: `None` and `0` are falsy. -/
def natTruthy : Option Nat → Bool
  | none => false
  | some n => n != 0

/-- Python `x or d` on an optional non-negative integer: the default replaces a falsy value. -/
def natOrElse (o : Option Nat) (d : Nat) : Nat :=
  match o with
  | none => d
  | some n => if n = 0 then d else n

/-- Python string interpolation of an optional string: `None` prints as the text `None`. -/
def strOfOpt : Option String → String
  | none => "None"
  | some s => s

/-- A string of `n` copies of one character (Python `c * n`). -/
def repChar (c : Char) (n : Nat) : String :=
  ⟨List.replicate n c⟩

/-- Python `s.replace(c, '')`: deletes every occurrence of the character. -/
def eraseChar (s : String) (c : Char) : String :=
  ⟨s.data.filter (fun a => a ≠ c)⟩

/-- Python `s[:n]` on a string: the first `n` characters. -/
def strTake (s : String) (n : Nat) : String :=
  ⟨s.data.take n⟩

/-- Python `len(s)`: the number of characters. -/
def strLen (s : String) : Nat :=
  s.data.length

/-- Python `s.lower()` character by character (the dialect and type tags are
    ASCII, where this agrees with Python). -/
def strLower (s : String) : String :=
  ⟨s.data.map Char.toLower⟩

/-- Python `s.upper()` character by character. -/
def strUpper (s : String) : String :=
  ⟨s.data.map Char.toUpper⟩

/-- Column entity of the table definition model (structure.py `MagiTableColumn`). -/
structure MagiTableColumn where
  name : String
  data_type : String
  length : Option Nat := none
  precision : Option Nat := none
  primary_key : Bool := false
  unique : Bool := false
  not_null : Bool := false
  default : Option String := none
  comment : Option String := none
  no : Option Nat := none
deriving DecidableEq

/-- Index entity (structure.py `MagiTableIndex`). -/
structure MagiTableIndex where
  name : String
  columns : List String := []
  unique : Bool := false
deriving DecidableEq

/-- Table entity (structure.py `MagiTable`). The column and index mappings are
    insertion-ordered name-keyed mappings (Python dicts), modelled as
    association lists; `table_name` is annotated `str or None` in the source,
    hence an `Option`. -/
structure MagiTable where
  table_name : Option String
  table_comment : Option String := none
  table_schema : Option String := none
  columns : List (String × MagiTableColumn) := []
  indexes : List (String × MagiTableIndex) := []
deriving DecidableEq

/-- DDL statement-head builder (structure.py `MagiDDL`). -/
structure MagiDDL where
  table : Option MagiTable := none
  schema_name : Option String := none
  tablespace : Option String := none
  storage_engine : Option String := none
  charset : Option String := none
  collation : Option String := none
  if_not_exists : Bool := false
  temporary : Bool := false
deriving DecidableEq

/-- Errors the DDL generation path can raise: the unsupported-dialect
    ValueError of create_table, and the TypeError that Python's
    `' '.join(ddl_parts)` raises when the still-unset table name (`None`) is
    among the joined parts. -/
inductive DDLError
  | unsupportedDialect (msg : String)
  | typeError (msg : String)
deriving DecidableEq

/-- Message of the TypeError raised by `' '.join` over a `None` part. -/
def NONE_JOIN_TYPE_ERROR : String :=
  "sequence item: expected str instance, NoneType found"

/-- MagiDDL.get_ddl_string: `CREATE [TEMPORARY] TABLE [IF NOT EXISTS] [schema.]name`,
    or the empty string when no table is attached. The final part is the raw
    `table.table_name`; when a truthy schema qualifier is set it is rebuilt by
    an f-string (which prints `None` as text), but otherwise a still-`None`
    name reaches `' '.join(ddl_parts)` unconverted and the join raises
    TypeError — the `Except.error` branch below. -/
def MagiDDL.get_ddl_string (d : MagiDDL) : Except DDLError String :=
  match d.table with
  | none => .ok ""
  | some t =>
    let parts := ["CREATE"]
    let parts := if d.temporary then parts ++ ["TEMPORARY"] else parts
    let parts := parts ++ ["TABLE"]
    let parts := if d.if_not_exists then parts ++ ["IF NOT EXISTS"] else parts
    if strTruthy d.schema_name then
      .ok (" ".intercalate (parts ++ [strOfOpt d.schema_name ++ "." ++ strOfOpt t.table_name]))
    else
      match t.table_name with
      | some nm => .ok (" ".intercalate (parts ++ [nm]))
      | none => .error (.typeError NONE_JOIN_TYPE_ERROR)

/-- Supported dialect identifiers (DDLConstruct.SUPPORTED_DATABASES). -/
def SUPPORTED_DATABASES : List String := ["oracle", "postgres"]

/-- DDLConstruct._build_column_definition: renders one column clause. -/
def build_column_definition (column : MagiTableColumn) : String :=
  let typeStr :=
    if natTruthy column.length &&
        (strLower column.data_type == "varchar" || strLower column.data_type == "char") then
      column.data_type ++ "(" ++ toString (column.length.getD 0) ++ ")"
    else column.data_type
  let parts := [column.name, typeStr]
  let parts := if column.primary_key then parts ++ ["PRIMARY KEY"] else parts
  let parts := if column.not_null then parts ++ ["NOT NULL"] else parts
  let parts :=
    match column.default with
    | some d => parts ++ ["DEFAULT " ++ d]
    | none => parts
  " ".intercalate parts

/-- DDLConstruct._build_index_definition. -/
def build_index_definition (table_name : String) (index : MagiTableIndex) : String :=
  let index_type := if index.unique then "UNIQUE INDEX" else "INDEX"
  let columns := ", ".intercalate index.columns
  "CREATE " ++ index_type ++ " " ++ index.name ++ " ON " ++ table_name ++ " (" ++ columns ++ ")"

/-- Message of the unsupported-dialect ValueError. -/
def unsupported_dialect_message (database : String) : String :=
  "Unsupported database: " ++ database ++ ". Supported databases: ['oracle', 'postgres']"

/-- DDLConstruct.create_table: the dialect check comes first; the
    unsupported-dialect ValueError is produced before any DDL text is
    assembled, and a TypeError escaping `get_ddl_string` (unset table name)
    propagates to the caller. In the source the oracle and postgres branches
    of the table-comment step emit the same text, so no further dialect
    distinction appears below the membership test. -/
def create_table (magi_table : MagiTable) (database : String) : Except DDLError String :=
  if strLower database ∈ SUPPORTED_DATABASES then
    match MagiDDL.get_ddl_string { table := some magi_table } with
    | .error e => .error e
    | .ok head =>
      let columns := magi_table.columns.map (fun p => build_column_definition p.2)
      let ddl_str := head ++ " (\n    " ++ ",\n    ".intercalate columns ++ "\n)"
      let ddl_str :=
        if strTruthy magi_table.table_comment then
          ddl_str ++ "\nCOMMENT ON TABLE " ++ strOfOpt magi_table.table_name ++ " IS '" ++
            strOfOpt magi_table.table_comment ++ "'"
        else ddl_str
      let ddl_str := magi_table.columns.foldl (fun acc p =>
        if strTruthy p.2.comment then
          acc ++ ";\nCOMMENT ON COLUMN " ++ strOfOpt magi_table.table_name ++ "." ++ p.2.name ++
            " IS '" ++ strOfOpt p.2.comment ++ "'"
        else acc) ddl_str
      let ddl_str :=
        if magi_table.indexes.isEmpty then ddl_str
        else
          ddl_str ++ ";\n" ++ ";\n".intercalate (magi_table.indexes.map
            (fun p => build_index_definition (strOfOpt magi_table.table_name) p.2))
      Except.ok ddl_str
  else
    Except.error (.unsupportedDialect (unsupported_dialect_message database))

/-- Length-ratio configuration (data_constuct.py `LengthRatio`). -/
inductive LengthRatio
  | one_third
  | half
  | full
deriving DecidableEq

/-- Numerical value of a length ratio: the source enum stores the constants
    1/3, 1/2 and 1 (exact rationals here in place of the float constants). -/
def LengthRatio.value : LengthRatio → ℚ
  | .one_third => 1/3
  | .half => 1/2
  | .full => 1

/-- Text fill configuration (data_constuct.py `TextFillMode`). -/
inductive TextFillMode
  | only_n
  | comment_plus_n
deriving DecidableEq

/-- One row of the generated tabular representation (the pandas data frame
    built by `generate_dataframe`): the column's declared fields plus the
    generated literal. -/
structure DFRow where
  name : String
  data_type : String
  length : Option Nat
  precision : Option Nat
  primary_key : Bool
  unique : Bool
  not_null : Bool
  default : Option String
  comment : Option String
  generated_value : String
deriving DecidableEq

/-- Generated tabular representation: rows in ordinal order. -/
abbrev DataFrame := List DFRow

/-- Generator state (data_constuct.py `TestDataGenerator`): the configuration
    plus the optional cached data frame (`None` before the first generation or
    load). -/
structure TestDataGenerator where
  length_ratio : LengthRatio := .full
  text_fill_mode : TextFillMode := .only_n
  data_frame : Option DataFrame := none
deriving DecidableEq

/-- TestDataGenerator.calculate_actual_length. The source computes
    `int(max_length * self.length_ratio.value)` over IEEE doubles; for every
    length below 2^53 that equals the exact floored product, which for the
    three ratio constants is the integer division written here. -/
def TestDataGenerator.calculate_actual_length (g : TestDataGenerator) (max_length : Nat) : Nat :=
  if max_length = 0 then 1
  else
    let actual_length :=
      match g.length_ratio with
      | .one_third => max_length / 3
      | .half => max_length / 2
      | .full => max_length
    max 1 actual_length

/-- Text of the literal built by TestDataGenerator.generate_text_value before
    the enclosing quotes are added (the source's local `result_text`). -/
def TestDataGenerator.text_value_body (g : TestDataGenerator) (column : MagiTableColumn) : String :=
  let max_length := natOrElse column.length 1
  let actual_length := g.calculate_actual_length max_length
  if g.text_fill_mode = .comment_plus_n then
    let comment := (column.comment).getD ""
    let clean_comment := eraseChar (eraseChar comment '\'') '"'
    if clean_comment.isEmpty then repChar 'N' actual_length
    else
      let comment_length := strLen clean_comment
      if comment_length ≥ actual_length then strTake clean_comment actual_length
      else clean_comment ++ repChar 'N' (actual_length - comment_length)
  else repChar 'N' actual_length

/-- TestDataGenerator.generate_text_value: the single-quoted literal. -/
def TestDataGenerator.generate_text_value (g : TestDataGenerator) (column : MagiTableColumn) : String :=
  "'" ++ g.text_value_body column ++ "'"

/-- TestDataGenerator.generate_number_value: the digit 9 repeated. -/
def TestDataGenerator.generate_number_value (g : TestDataGenerator) (column : MagiTableColumn) : String :=
  let max_length := natOrElse column.length 9
  let actual_length := g.calculate_actual_length max_length
  repChar '9' actual_length

/-- Character-family type tags of the dispatch in generate_default_value. -/
def character_types : List String :=
  ["VARCHAR", "VARCHAR2", "CHAR", "NVARCHAR", "NCHAR", "TEXT", "CLOB"]

/-- Numeric type tags of the dispatch in generate_default_value. -/
def number_types : List String :=
  ["INTEGER", "INT", "NUMBER", "DECIMAL", "NUMERIC", "FLOAT", "DOUBLE"]

/-- Temporal type tags of the dispatch in generate_default_value. -/
def date_types : List String := ["DATE", "TIMESTAMP", "DATETIME"]

/-- Boolean type tags of the dispatch in generate_default_value. -/
def boolean_types : List String := ["BOOLEAN", "BOOL"]

/-- Oracle maximum-date sentinel (TestDataGenerator.ORACLE_MAX_DATE). -/
def ORACLE_MAX_DATE : String := "DATE '9999-12-31'"

/-- TestDataGenerator.generate_default_value: dispatch on the upper-cased type tag. -/
def TestDataGenerator.generate_default_value (g : TestDataGenerator) (column : MagiTableColumn) : String :=
  let data_type := strUpper column.data_type
  if data_type ∈ character_types then g.generate_text_value column
  else if data_type ∈ number_types then g.generate_number_value column
  else if data_type ∈ date_types then ORACLE_MAX_DATE
  else if data_type ∈ boolean_types then "TRUE"
  else "NULL"

/-- Stable insertion of a column into a list already sorted by ordinal key
    `x.no or 0`, placed after entries with an equal or smaller key. -/
def insertByNo (c : MagiTableColumn) : List MagiTableColumn → List MagiTableColumn
  | [] => [c]
  | d :: ds => if d.no.getD 0 ≤ c.no.getD 0 then d :: insertByNo c ds else c :: d :: ds

/-- Stable sort of the column list by ordinal: Python's stable
    `sorted(table.columns.values(), key=lambda x: x.no or 0)`. -/
def sortColumnsByNo (cols : List MagiTableColumn) : List MagiTableColumn :=
  cols.foldl (fun acc c => insertByNo c acc) []

/-- Generated literal for one column: a truthy declared default other than the
    `NULL` sentinel is used verbatim, otherwise the synthesized literal. -/
def TestDataGenerator.generated_value_for (g : TestDataGenerator) (column : MagiTableColumn) : String :=
  match column.default with
  | some d => if d ≠ "" ∧ d ≠ "NULL" then d else g.generate_default_value column
  | none => g.generate_default_value column

/-- TestDataGenerator.generate_dataframe: the tabular representation, one row
    per column in ordinal order, together with the updated generator state
    caching it in `data_frame`. -/
def TestDataGenerator.generate_dataframe (g : TestDataGenerator) (table : MagiTable) :
    TestDataGenerator × DataFrame :=
  let sorted_columns := sortColumnsByNo (table.columns.map Prod.snd)
  let df : DataFrame := sorted_columns.map (fun column =>
    { name := column.name
      data_type := column.data_type
      length := column.length
      precision := column.precision
      primary_key := column.primary_key
      unique := column.unique
      not_null := column.not_null
      default := column.default
      comment := column.comment
      generated_value := g.generated_value_for column })
  ({ g with data_frame := some df }, df)

/-- Qualified table name of the insert builders: `schema.table` when a truthy
    schema qualifier is supplied. -/
def full_table_name (table_name : String) (schema_name : Option String) : String :=
  if strTruthy schema_name then strOfOpt schema_name ++ "." ++ table_name else table_name

/-- Comma-joined column names of the data frame (the builders' `columns_str`). -/
def columns_str (df : DataFrame) : String :=
  ", ".intercalate (df.map DFRow.name)

/-- Comma-joined generated literals of the data frame (the builders' `values_str`). -/
def values_str (df : DataFrame) : String :=
  ", ".intercalate (df.map DFRow.generated_value)

/-- Message of the ValueError raised when no data frame has been generated or
    loaded yet. -/
def DATAFRAME_MISSING : String :=
  "DataFrame未加载，请先调用generate_dataframe或load_dataframe_from_csv方法"

/-- TestDataGenerator.generate_insert_from_dataframe: one INSERT statement per
    requested row. The optional CSV export is an external side effect that
    never alters the returned list, so it is not part of the result. -/
def TestDataGenerator.generate_insert_from_dataframe (g : TestDataGenerator)
    (table_name : String) (schema_name : Option String) (rows_count : Nat) :
    Except String (List String) :=
  match g.data_frame with
  | none => .error DATAFRAME_MISSING
  | some df =>
    let full := full_table_name table_name schema_name
    let insert_statements := (List.range rows_count).map (fun _ =>
      "INSERT INTO " ++ full ++ " (" ++ columns_str df ++ ") VALUES (" ++ values_str df ++ ");")
    .ok insert_statements

/-- Value tuples of the batch INSERT, one per requested row (the builder's
    `values_list`). -/
def batch_values_list (df : DataFrame) (rows_count : Nat) : List String :=
  (List.range rows_count).map (fun _ => "(" ++ values_str df ++ ")")

/-- TestDataGenerator.generate_batch_insert_from_dataframe: one statement with
    every value tuple in a single VALUES clause. -/
def TestDataGenerator.generate_batch_insert_from_dataframe (g : TestDataGenerator)
    (table_name : String) (schema_name : Option String) (rows_count : Nat) :
    Except String String :=
  match g.data_frame with
  | none => .error DATAFRAME_MISSING
  | some df =>
    let full := full_table_name table_name schema_name
    let batch_values_str := ",\n  ".intercalate (batch_values_list df rows_count)
    .ok ("INSERT INTO " ++ full ++ " (" ++ columns_str df ++ ") \nVALUES \n  " ++
      batch_values_str ++ ";")

/-- One row of the pipeline's tabular column listing (`columns_view`). -/
structure SourceRow where
  name : String
  data_type : String
  length : Option Nat := none
  precision : Option Nat := none
  primary_key : Bool := false
  unique : Bool := false
  not_null : Bool := false
  default : Option String := none
  comment : Option String := none
deriving DecidableEq

/-- State of a TableConstruct source once its `read_define` phase has filled
    the schema fields, the column listing and the indexes; the factory reads
    exactly these fields. -/
structure TableConstructState where
  table_name : Option String := none
  table_comment : Option String := none
  table_schema : Option String := none
  indexes : List (String × MagiTableIndex) := []
  columns_view : List SourceRow := []
deriving DecidableEq

/-- Column entity built from one listing row with 1-based ordinal `no` (the
    loop body of `__extract_columns_to_magi_columns`). -/
def rowToColumn (r : SourceRow) (no : Nat) : MagiTableColumn :=
  { name := r.name, data_type := r.data_type, length := r.length,
    precision := r.precision, primary_key := r.primary_key, unique := r.unique,
    not_null := r.not_null, default := r.default, comment := r.comment,
    no := some no }

/-- Python dict assignment `d[k] = v` on an insertion-ordered association
    list: an existing key keeps its position and takes the new value, a new
    key is appended at the end. -/
def upsert (m : List (String × MagiTableColumn)) (k : String) (v : MagiTableColumn) :
    List (String × MagiTableColumn) :=
  match m with
  | [] => [(k, v)]
  | (k', v') :: rest => if k' = k then (k, v) :: rest else (k', v') :: upsert rest k v

/-- Enumerated extraction loop of `__extract_columns_to_magi_columns`; `i` is
    the number of listing rows already consumed. -/
def extractGo (acc : List (String × MagiTableColumn)) (i : Nat) :
    List SourceRow → List (String × MagiTableColumn)
  | [] => acc
  | r :: rest => extractGo (upsert acc r.name (rowToColumn r (i + 1))) (i + 1) rest

/-- TableConstruct.__extract_columns_to_magi_columns. -/
def extract_columns_to_magi_columns (rows : List SourceRow) : List (String × MagiTableColumn) :=
  extractGo [] 0 rows

/-- TableConstruct.magi_table_factory: after the `read_define` phase (whose
    results are the given state) it assembles the MagiTable directly; the
    source performs no validation here and has no failure path. -/
def magi_table_factory (s : TableConstructState) : MagiTable :=
  { table_name := s.table_name
    table_comment := s.table_comment
    table_schema := s.table_schema
    columns := extract_columns_to_magi_columns s.columns_view
    indexes := s.indexes }

/-- Keys of the name-keyed column mapping. -/
abbrev keysOf (m : List (String × MagiTableColumn)) : List String := m.map Prod.fst

/-- Lookup in the name-keyed column mapping. -/
def lookupCol (m : List (String × MagiTableColumn)) (k : String) : Option MagiTableColumn :=
  match m with
  | [] => none
  | (k', v) :: rest => if k' = k then some v else lookupCol rest k

/-- Column that the last listing row bearing a given name would produce, with
    that row's 1-based overall position as ordinal (`i` rows precede the given
    ones). Specification-side description of "the later row silently replaces
    the earlier one", compared against the extraction loop. -/
def columnFromLastRow (i : Nat) (rows : List SourceRow) (k : String) : Option MagiTableColumn :=
  match rows with
  | [] => none
  | r :: rest =>
    match columnFromLastRow (i + 1) rest k with
    | some c => some c
    | none => if r.name = k then some (rowToColumn r (i + 1)) else none

/-! Concrete fixtures used by witnesses and examples. -/

/-- Example-1 column of the specification: INTEGER of length 10, primary key,
    not null. -/
def exampleIdColumn : MagiTableColumn :=
  { name := "id", data_type := "INTEGER", length := some 10, primary_key := true,
    not_null := true, no := some 1 }

/-- Example-2 column of the specification: VARCHAR(100) with comment
    `Email address`. -/
def exampleEmailColumn : MagiTableColumn :=
  { name := "email", data_type := "VARCHAR", length := some 100,
    comment := some "Email address", no := some 2 }

/-- Generator configured with ratio one-third and filler-only mode. -/
def oneThirdGen : TestDataGenerator :=
  { length_ratio := .one_third, text_fill_mode := .only_n }

/-- Generator configured with ratio one-half and comment-plus-filler mode. -/
def halfCommentGen : TestDataGenerator :=
  { length_ratio := .half, text_fill_mode := .comment_plus_n }

/-- Demonstration table with the two example columns. -/
def demoTable : MagiTable :=
  { table_name := some "test_table",
    columns := [("id", exampleIdColumn), ("email", exampleEmailColumn)] }

/-- Data frame generated from the demonstration table by a default generator. -/
def demoFrame : DataFrame :=
  ((⟨.full, .only_n, none⟩ : TestDataGenerator).generate_dataframe demoTable).2

/-- Generator state holding the demonstration data frame. -/
def demoLoadedGen : TestDataGenerator :=
  { length_ratio := .full, text_fill_mode := .only_n, data_frame := some demoFrame }

/-! Theorems settling the claims. -/

/-- Characters of an appended string are those of the parts. -/
theorem strData_append (a b : String) : (a ++ b).data = a.data ++ b.data := by
  cases a; cases b; rfl

/-- Discriminator of the unsupported-dialect outcome of create_table. -/
def isUnsupportedDialectError : Except DDLError String → Bool
  | .error (.unsupportedDialect _) => true
  | _ => false

/-- An error escaping get_ddl_string is always the join TypeError, never an
    unsupported-dialect error. -/
theorem get_ddl_string_error_shape (dd : MagiDDL) (e : DDLError)
    (h : dd.get_ddl_string = .error e) : e = .typeError NONE_JOIN_TYPE_ERROR := by
  unfold MagiDDL.get_ddl_string at h
  split at h
  · exact absurd h (by simp)
  · dsimp only at h
    split at h
    · exact absurd h (by simp)
    · split at h
      · exact absurd h (by simp)
      · simp only [Except.error.injEq] at h
        exact h.symm

/-- C2: for every table definition and dialect string, `create_table` fails
    with the unsupported-dialect error and produces no text whenever the
    lower-cased dialect lies outside the supported set — the membership test
    is the first step of the operation, so nothing is assembled in the error
    branch — and for a dialect in the supported set no unsupported-dialect
    error is ever raised. -/
theorem C2_create_table_dialect_check (t : MagiTable) (d : String) :
    (strLower d ∉ SUPPORTED_DATABASES →
      create_table t d = .error (.unsupportedDialect (unsupported_dialect_message d))) ∧
    (strLower d ∈ SUPPORTED_DATABASES →
      isUnsupportedDialectError (create_table t d) = false) := by
  constructor
  · intro h
    simp only [create_table, if_neg h]
  · intro h
    simp only [create_table, if_pos h]
    cases hg : MagiDDL.get_ddl_string { table := some t } with
    | error e =>
      have he := get_ddl_string_error_shape _ _ hg
      subst he
      simp [isUnsupportedDialectError]
    | ok head =>
      simp [isUnsupportedDialectError]

/-- C2 witness: the dialect `mysql` is rejected with the unsupported-dialect
    error while `Oracle` is accepted case-insensitively on the demonstration
    table, raising no such error. -/
theorem C2_create_table_dialect_check_witness :
    create_table demoTable "mysql" =
      .error (.unsupportedDialect (unsupported_dialect_message "mysql")) ∧
    isUnsupportedDialectError (create_table demoTable "Oracle") = false :=
  ⟨(C2_create_table_dialect_check demoTable "mysql").1 (by decide),
   (C2_create_table_dialect_check demoTable "Oracle").2 (by decide)⟩

/-- C3: for every generator and positive declared length L the computed actual
    length is max 1 ⌊L·r⌋ for the configured ratio r; with the full ratio it
    is L itself; and the Example-1 column (INTEGER, length 10) at ratio
    one-third gets actual length 3 and the numeric literal 999. -/
theorem C3_actual_length_formula (g : TestDataGenerator) (L : Nat) (h : 0 < L) :
    g.calculate_actual_length L = max 1 (Nat.floor ((L : ℚ) * g.length_ratio.value)) ∧
    (g.length_ratio = .full → g.calculate_actual_length L = L) ∧
    oneThirdGen.calculate_actual_length 10 = 3 ∧
    oneThirdGen.generate_number_value exampleIdColumn = "999" := by
  have hne : L ≠ 0 := Nat.pos_iff_ne_zero.mp h
  refine ⟨?_, ?_, by decide, by decide⟩
  · unfold TestDataGenerator.calculate_actual_length
    rw [if_neg hne]
    cases hr : g.length_ratio with
    | one_third =>
      have : ((L : ℚ) * LengthRatio.value .one_third) = (L : ℚ) / 3 := by
        unfold LengthRatio.value; ring
      rw [this, Nat.floor_div_ofNat, Nat.floor_natCast]
    | half =>
      have : ((L : ℚ) * LengthRatio.value .half) = (L : ℚ) / 2 := by
        unfold LengthRatio.value; ring
      rw [this, Nat.floor_div_ofNat, Nat.floor_natCast]
    | full =>
      have : ((L : ℚ) * LengthRatio.value .full) = (L : ℚ) := by
        unfold LengthRatio.value; ring
      rw [this, Nat.floor_natCast]
  · intro hf
    unfold TestDataGenerator.calculate_actual_length
    rw [if_neg hne, hf]
    exact max_eq_right h

/-- C3 witness at the Example-1 length 10 with ratio one-third. -/
theorem C3_actual_length_formula_witness :
    0 < 10 ∧
    (oneThirdGen.calculate_actual_length 10 =
        max 1 (Nat.floor ((10 : ℚ) * oneThirdGen.length_ratio.value)) ∧
      (oneThirdGen.length_ratio = .full → oneThirdGen.calculate_actual_length 10 = 10) ∧
      oneThirdGen.calculate_actual_length 10 = 3 ∧
      oneThirdGen.generate_number_value exampleIdColumn = "999") :=
  ⟨by decide, C3_actual_length_formula oneThirdGen 10 (by decide)⟩

/-- Characters surviving the two quote-erasing passes are neither kind of quote. -/
theorem mem_erase_quotes (s : String) (c : Char)
    (hc : c ∈ (eraseChar (eraseChar s '\'') '"').data) : c ≠ '\'' ∧ c ≠ '"' := by
  simp only [eraseChar, List.mem_filter, decide_eq_true_eq] at hc
  exact ⟨hc.1.2, hc.2⟩

/-- Characters of a filler run are the filler character. -/
theorem mem_repChar {c a : Char} {n : Nat} (h : c ∈ (repChar a n).data) : c = a :=
  List.eq_of_mem_replicate h

/-- C4: for every generator configuration and every column (hence every input
    comment content), generate_text_value returns exactly the synthesized body
    between the two delimiting single quotes, and that body never contains a
    single-quote or double-quote character. -/
theorem C4_text_literal_no_quotes (g : TestDataGenerator) (column : MagiTableColumn) :
    g.generate_text_value column = "'" ++ g.text_value_body column ++ "'" ∧
    ∀ c ∈ (g.text_value_body column).data, c ≠ '\'' ∧ c ≠ '"' := by
  refine ⟨rfl, ?_⟩
  intro c hc
  have hN : c = 'N' → c ≠ '\'' ∧ c ≠ '"' := by
    intro h; subst h; exact ⟨by decide, by decide⟩
  unfold TestDataGenerator.text_value_body at hc
  split at hc
  · dsimp only at hc
    split at hc
    · exact hN (mem_repChar hc)
    · split at hc
      · exact mem_erase_quotes _ c (List.mem_of_mem_take hc)
      · rw [strData_append] at hc
        rcases List.mem_append.mp hc with h | h
        · exact mem_erase_quotes _ c h
        · exact hN (mem_repChar h)
  · exact hN (mem_repChar hc)

/-- C4 witness: the delimiting-quote decomposition at the Example-2 column,
    and the guarantee applied to a concrete character of its body. -/
theorem C4_text_literal_no_quotes_witness :
    halfCommentGen.generate_text_value exampleEmailColumn =
      "'" ++ halfCommentGen.text_value_body exampleEmailColumn ++ "'" ∧
    ('E' ≠ '\'' ∧ 'E' ≠ '"') :=
  ⟨(C4_text_literal_no_quotes halfCommentGen exampleEmailColumn).1,
   (C4_text_literal_no_quotes halfCommentGen exampleEmailColumn).2 'E' (by decide)⟩

/-- Computed actual length is always at least one. -/
theorem one_le_calculate_actual_length (g : TestDataGenerator) (L : Nat) :
    1 ≤ g.calculate_actual_length L := by
  unfold TestDataGenerator.calculate_actual_length
  split
  · exact le_refl 1
  · exact le_max_left 1 _

/-- Sanitized comment of a column: the comment with every single and double
    quote character deleted, as the generator computes it. -/
def sanitized_comment (column : MagiTableColumn) : String :=
  eraseChar (eraseChar ((column.comment).getD "") '\'') '"'

/-- Empty string is a left identity of append. -/
theorem empty_strAppend (s : String) : "" ++ s = s := by
  cases s; rfl

/-- C5: in comment-plus-filler mode the text body equals the sanitized comment
    truncated to the actual length when it is long enough, and otherwise the
    sanitized comment followed by the filler character repeated
    actual length − sanitized length times; the Example-2 column (VARCHAR(100)
    with comment `Email address`) at ratio one-half yields the literal
    `Email address` followed by 37 fillers. -/
theorem C5_comment_plus_filler (g : TestDataGenerator) (column : MagiTableColumn)
    (hm : g.text_fill_mode = .comment_plus_n) :
    g.text_value_body column =
      (if strLen (sanitized_comment column) ≥
          g.calculate_actual_length (natOrElse column.length 1) then
        strTake (sanitized_comment column)
          (g.calculate_actual_length (natOrElse column.length 1))
      else
        sanitized_comment column ++ repChar 'N'
          (g.calculate_actual_length (natOrElse column.length 1) -
            strLen (sanitized_comment column))) ∧
    halfCommentGen.generate_text_value exampleEmailColumn =
      "'" ++ "Email address" ++ repChar 'N' 37 ++ "'" := by
  refine ⟨?_, by decide⟩
  unfold TestDataGenerator.text_value_body sanitized_comment
  rw [if_pos hm]
  by_cases he :
      (eraseChar (eraseChar ((column.comment).getD "") '\'') '"').isEmpty
  · rw [if_pos he]
    have he' : eraseChar (eraseChar ((column.comment).getD "") '\'') '"' = "" :=
      (String.isEmpty_iff _).mp he
    rw [he']
    have h1 : 1 ≤ g.calculate_actual_length (natOrElse column.length 1) :=
      one_le_calculate_actual_length g _
    have hlen : strLen ("" : String) = 0 := rfl
    rw [hlen, if_neg (by omega), Nat.sub_zero, empty_strAppend]
  · rw [if_neg he]

/-- C5 witness at the Example-2 column with the one-half comment-plus-filler
    generator. -/
theorem C5_comment_plus_filler_witness :
    halfCommentGen.text_value_body exampleEmailColumn =
      (if strLen (sanitized_comment exampleEmailColumn) ≥
          halfCommentGen.calculate_actual_length (natOrElse exampleEmailColumn.length 1) then
        strTake (sanitized_comment exampleEmailColumn)
          (halfCommentGen.calculate_actual_length (natOrElse exampleEmailColumn.length 1))
      else
        sanitized_comment exampleEmailColumn ++ repChar 'N'
          (halfCommentGen.calculate_actual_length (natOrElse exampleEmailColumn.length 1) -
            strLen (sanitized_comment exampleEmailColumn))) ∧
    halfCommentGen.generate_text_value exampleEmailColumn =
      "'" ++ "Email address" ++ repChar 'N' 37 ++ "'" :=
  C5_comment_plus_filler halfCommentGen exampleEmailColumn rfl

/-- C7: with a data frame present, single-row mode returns exactly
    `rows_count` pairwise-identical INSERT statements, and batch mode returns
    one statement whose single VALUES clause joins exactly `rows_count`
    identical value tuples. -/
theorem C7_row_counts_identical (g : TestDataGenerator) (df : DataFrame)
    (tn : String) (sch : Option String) (n : Nat)
    (hdf : g.data_frame = some df) (hn : 1 ≤ n) :
    g.generate_insert_from_dataframe tn sch n =
      .ok (List.replicate n ("INSERT INTO " ++ full_table_name tn sch ++ " (" ++
        columns_str df ++ ") VALUES (" ++ values_str df ++ ");")) ∧
    batch_values_list df n = List.replicate n ("(" ++ values_str df ++ ")") ∧
    g.generate_batch_insert_from_dataframe tn sch n =
      .ok ("INSERT INTO " ++ full_table_name tn sch ++ " (" ++ columns_str df ++
        ") \nVALUES \n  " ++
        ",\n  ".intercalate (List.replicate n ("(" ++ values_str df ++ ")")) ++ ";") := by
  have hrep : ∀ s : String, (List.range n).map (fun _ => s) = List.replicate n s := by
    intro s
    rw [List.map_const', List.length_range]
  refine ⟨?_, ?_, ?_⟩
  · simp only [TestDataGenerator.generate_insert_from_dataframe, hdf, hrep]
  · simp only [batch_values_list, hrep]
  · simp only [TestDataGenerator.generate_batch_insert_from_dataframe, hdf,
      batch_values_list, hrep]

/-- C7 witness on the demonstration data frame with two rows requested. -/
theorem C7_row_counts_identical_witness :
    demoLoadedGen.generate_insert_from_dataframe "test_table" (some "s") 2 =
      .ok (List.replicate 2 ("INSERT INTO " ++ full_table_name "test_table" (some "s") ++
        " (" ++ columns_str demoFrame ++ ") VALUES (" ++ values_str demoFrame ++ ");")) ∧
    batch_values_list demoFrame 2 = List.replicate 2 ("(" ++ values_str demoFrame ++ ")") ∧
    demoLoadedGen.generate_batch_insert_from_dataframe "test_table" (some "s") 2 =
      .ok ("INSERT INTO " ++ full_table_name "test_table" (some "s") ++ " (" ++
        columns_str demoFrame ++ ") \nVALUES \n  " ++
        ",\n  ".intercalate (List.replicate 2 ("(" ++ values_str demoFrame ++ ")")) ++ ";") :=
  C7_row_counts_identical demoLoadedGen demoFrame "test_table" (some "s") 2 rfl (by decide)

/-- C8: invoked while the internal data frame is absent, both insert builders
    fail with the generation-precondition error and return no statements. -/
theorem C8_insert_requires_dataframe (g : TestDataGenerator) (tn : String)
    (sch : Option String) (n : Nat) (h : g.data_frame = none) :
    g.generate_insert_from_dataframe tn sch n = .error DATAFRAME_MISSING ∧
    g.generate_batch_insert_from_dataframe tn sch n = .error DATAFRAME_MISSING := by
  constructor
  · simp only [TestDataGenerator.generate_insert_from_dataframe, h]
  · simp only [TestDataGenerator.generate_batch_insert_from_dataframe, h]

/-- C8 witness: a freshly constructed generator rejects both builders. -/
theorem C8_insert_requires_dataframe_witness :
    (⟨.full, .only_n, none⟩ : TestDataGenerator).generate_insert_from_dataframe
        "test_table" none 1 = .error DATAFRAME_MISSING ∧
    (⟨.full, .only_n, none⟩ : TestDataGenerator).generate_batch_insert_from_dataframe
        "test_table" none 1 = .error DATAFRAME_MISSING :=
  C8_insert_requires_dataframe ⟨.full, .only_n, none⟩ "test_table" none 1 rfl

/-- C9: generation is deterministic and depends only on the configuration:
    two generator states agreeing on length ratio and fill mode produce
    identical data frames from the same table and then identical single-row
    and batch INSERT text, and repeated DDL generation on the same inputs
    yields identical text. -/
theorem C9_generation_deterministic (g₁ g₂ : TestDataGenerator) (t : MagiTable)
    (d tn : String) (sch : Option String) (n : Nat)
    (hr : g₁.length_ratio = g₂.length_ratio)
    (hm : g₁.text_fill_mode = g₂.text_fill_mode) :
    create_table t d = create_table t d ∧
    (g₁.generate_dataframe t).2 = (g₂.generate_dataframe t).2 ∧
    (g₁.generate_dataframe t).1.generate_insert_from_dataframe tn sch n =
      (g₂.generate_dataframe t).1.generate_insert_from_dataframe tn sch n ∧
    (g₁.generate_dataframe t).1.generate_batch_insert_from_dataframe tn sch n =
      (g₂.generate_dataframe t).1.generate_batch_insert_from_dataframe tn sch n := by
  obtain ⟨r₁, m₁, df₁⟩ := g₁
  obtain ⟨r₂, m₂, df₂⟩ := g₂
  simp only at hr hm
  subst hr
  subst hm
  exact ⟨rfl, rfl, rfl, rfl⟩

/-- C9 witness: two generators with equal configuration but different cached
    frames behave identically on the demonstration table. -/
theorem C9_generation_deterministic_witness :
    create_table demoTable "oracle" = create_table demoTable "oracle" ∧
    ((⟨.full, .only_n, none⟩ : TestDataGenerator).generate_dataframe demoTable).2 =
      (demoLoadedGen.generate_dataframe demoTable).2 ∧
    ((⟨.full, .only_n, none⟩ : TestDataGenerator).generate_dataframe
        demoTable).1.generate_insert_from_dataframe "test_table" none 1 =
      (demoLoadedGen.generate_dataframe demoTable).1.generate_insert_from_dataframe
        "test_table" none 1 ∧
    ((⟨.full, .only_n, none⟩ : TestDataGenerator).generate_dataframe
        demoTable).1.generate_batch_insert_from_dataframe "test_table" none 1 =
      (demoLoadedGen.generate_dataframe demoTable).1.generate_batch_insert_from_dataframe
        "test_table" none 1 :=
  C9_generation_deterministic ⟨.full, .only_n, none⟩ demoLoadedGen demoTable
    "oracle" "test_table" none 1 rfl rfl

/-- Demonstration source state whose read phase leaves table_name unset. -/
def unnamedSourceState : TableConstructState :=
  { table_name := none,
    columns_view := [{ name := "id", data_type := "INTEGER" }] }

/-- C1 counterexample: with table_name unset when the factory completes, no
    ConfigurationError occurs and a full TableDefinition is produced — the
    unset name is carried over and the column row is extracted as usual. -/
theorem C1_counterexample_factory_accepts_unset_name :
    magi_table_factory unnamedSourceState =
      { table_name := none,
        table_comment := none,
        table_schema := none,
        columns := [("id",
          { name := "id", data_type := "INTEGER", length := none, precision := none,
            primary_key := false, unique := false, not_null := false,
            default := none, comment := none, no := some 1 })],
        indexes := [] } := rfl

/-- C1 (amended): the factory performs no table-name validation: for every
    source state whose table_name is unset or empty at completion it finishes
    without error and returns the TableDefinition assembled from exactly that
    state, unset or empty name included. -/
theorem C1_factory_no_name_validation (s : TableConstructState)
    (h : s.table_name = none ∨ s.table_name = some "") :
    magi_table_factory s =
      { table_name := s.table_name,
        table_comment := s.table_comment,
        table_schema := s.table_schema,
        columns := extract_columns_to_magi_columns s.columns_view,
        indexes := s.indexes } := rfl

/-- C1 witness at the unset-name demonstration state. -/
theorem C1_factory_no_name_validation_witness :
    (unnamedSourceState.table_name = none ∨ unnamedSourceState.table_name = some "") ∧
    magi_table_factory unnamedSourceState =
      { table_name := unnamedSourceState.table_name,
        table_comment := unnamedSourceState.table_comment,
        table_schema := unnamedSourceState.table_schema,
        columns := extract_columns_to_magi_columns unnamedSourceState.columns_view,
        indexes := unnamedSourceState.indexes } :=
  ⟨Or.inl rfl, C1_factory_no_name_validation unnamedSourceState (Or.inl rfl)⟩

/-- Joining two words with a space. -/
theorem space_intercalate_two (a b : String) :
    " ".intercalate [a, b] = a ++ " " ++ b := rfl

/-- Joining three words with spaces. -/
theorem space_intercalate_three (a b c : String) :
    " ".intercalate [a, b, c] = a ++ " " ++ b ++ " " ++ c := rfl

/-- Joining four words with spaces. -/
theorem space_intercalate_four (a b c d : String) :
    " ".intercalate [a, b, c, d] = a ++ " " ++ b ++ " " ++ c ++ " " ++ d := rfl

/-- Joining five words with spaces. -/
theorem space_intercalate_five (a b c d e : String) :
    " ".intercalate [a, b, c, d, e] = a ++ " " ++ b ++ " " ++ c ++ " " ++ d ++ " " ++ e := rfl

/-- C6 counterexample: `VARCHAR2` is one of the character-family type tags of
    the value generator's own dispatch and the column declares length 30, yet
    the rendered clause carries no length suffix. -/
theorem C6_counterexample_varchar2_no_suffix :
    "VARCHAR2" ∈ character_types ∧
    natTruthy (some 30) = true ∧
    build_column_definition
      { name := "payload", data_type := "VARCHAR2", length := some 30, no := some 1 } =
      "payload VARCHAR2" := by
  refine ⟨by decide, by decide, by decide⟩

/-- C6 (amended): every rendered column clause is
    `name type[(length)] [PRIMARY KEY] [NOT NULL] [DEFAULT <literal>]` in that
    order, and the length suffix is present exactly when the lower-cased type
    tag is varchar or char and a truthy (declared, non-zero) length exists —
    never for any other tag, numeric, date, boolean or remaining
    character-family tags alike. -/
theorem C6_column_clause_shape (column : MagiTableColumn) :
    build_column_definition column =
      column.name ++ " " ++ column.data_type ++
      (if natTruthy column.length &&
          (strLower column.data_type == "varchar" || strLower column.data_type == "char") then
        "(" ++ toString (column.length.getD 0) ++ ")"
      else "") ++
      (if column.primary_key then " PRIMARY KEY" else "") ++
      (if column.not_null then " NOT NULL" else "") ++
      (match column.default with
       | some d => " DEFAULT " ++ d
       | none => "") := by
  unfold build_column_definition
  apply String.ext
  cases hl : natTruthy column.length &&
      (strLower column.data_type == "varchar" || strLower column.data_type == "char") <;>
    cases hp : column.primary_key <;>
      cases hnn : column.not_null <;>
        cases hd : column.default <;>
          simp [strData_append, space_intercalate_two,
            space_intercalate_three, space_intercalate_four, space_intercalate_five,
            List.append_assoc]

/-! Properties of the dict-style extraction loop, for the duplicate-name claim. -/

/-- Keys after a dict assignment: an existing key leaves them unchanged, a new
    key is appended at the end. -/
theorem keysOf_upsert (m : List (String × MagiTableColumn)) (k : String) (v : MagiTableColumn) :
    keysOf (upsert m k v) = if k ∈ keysOf m then keysOf m else keysOf m ++ [k] := by
  induction m with
  | nil => simp [upsert, keysOf]
  | cons p rest ih =>
    obtain ⟨k', v'⟩ := p
    by_cases hk : k' = k
    · subst hk
      simp [upsert, keysOf]
    · by_cases hm : k ∈ keysOf rest
      · simp [upsert, hk, keysOf, ih, hm, Ne.symm hk]
      · simp [upsert, hk, keysOf, ih, hm, Ne.symm hk]

/-- Entry count after a dict assignment. -/
theorem length_upsert (m : List (String × MagiTableColumn)) (k : String) (v : MagiTableColumn) :
    (upsert m k v).length = if k ∈ keysOf m then m.length else m.length + 1 := by
  induction m with
  | nil => simp [upsert, keysOf]
  | cons p rest ih =>
    obtain ⟨k', v'⟩ := p
    by_cases hk : k' = k
    · subst hk
      simp [upsert, keysOf]
    · by_cases hm : k ∈ keysOf rest
      · simp [upsert, hk, ih, keysOf, hm, Ne.symm hk]
      · simp [upsert, hk, ih, keysOf, hm, Ne.symm hk]

/-- Dict assignment preserves key uniqueness. -/
theorem nodup_keysOf_upsert {m : List (String × MagiTableColumn)} {k : String}
    {v : MagiTableColumn} (h : (keysOf m).Nodup) : (keysOf (upsert m k v)).Nodup := by
  rw [keysOf_upsert]
  split
  · exact h
  · next hk => simp [List.nodup_append, h, hk]

/-- The assigned pair is an entry of the updated mapping. -/
theorem mem_upsert_self (m : List (String × MagiTableColumn)) (k : String) (v : MagiTableColumn) :
    (k, v) ∈ upsert m k v := by
  induction m with
  | nil => simp [upsert]
  | cons p rest ih =>
    obtain ⟨k', v'⟩ := p
    by_cases hk : k' = k
    · simp [upsert, hk]
    · simp only [upsert, if_neg hk]
      exact List.mem_cons_of_mem _ ih

/-- Lookup of the assigned key yields the assigned value. -/
theorem lookupCol_upsert_self (m : List (String × MagiTableColumn)) (k : String)
    (v : MagiTableColumn) : lookupCol (upsert m k v) k = some v := by
  induction m with
  | nil => simp [upsert, lookupCol]
  | cons p rest ih =>
    obtain ⟨k', v'⟩ := p
    by_cases hk : k' = k
    · simp [upsert, lookupCol, hk]
    · simp [upsert, lookupCol, hk, ih]

/-- Lookup of any other key is unchanged by the assignment. -/
theorem lookupCol_upsert_ne (m : List (String × MagiTableColumn)) (k : String)
    (v : MagiTableColumn) (k' : String) (h : k' ≠ k) :
    lookupCol (upsert m k v) k' = lookupCol m k' := by
  induction m with
  | nil => simp [upsert, lookupCol, Ne.symm h]
  | cons p rest ih =>
    obtain ⟨k'', v''⟩ := p
    by_cases hk : k'' = k
    · subst hk
      simp [upsert, lookupCol, Ne.symm h]
    · simp [upsert, lookupCol, hk, ih]

/-- Extraction never yields more entries than the accumulator plus the rows. -/
theorem extractGo_length_le (rows : List SourceRow) :
    ∀ (acc : List (String × MagiTableColumn)) (i : Nat),
      (extractGo acc i rows).length ≤ acc.length + rows.length := by
  induction rows with
  | nil =>
    intro acc i
    simp [extractGo]
  | cons r rest ih =>
    intro acc i
    have h1 := ih (upsert acc r.name (rowToColumn r (i + 1))) (i + 1)
    have h2 : (upsert acc r.name (rowToColumn r (i + 1))).length ≤ acc.length + 1 := by
      rw [length_upsert]
      split <;> omega
    simp only [extractGo, List.length_cons]
    omega

/-- Extraction yields strictly fewer entries than accumulator plus rows when
    the row names repeat, or when some row name is already a key. -/
theorem extractGo_length_lt (rows : List SourceRow) :
    ∀ (acc : List (String × MagiTableColumn)) (i : Nat),
      (¬ (rows.map SourceRow.name).Nodup ∨ ∃ r ∈ rows, r.name ∈ keysOf acc) →
      (extractGo acc i rows).length < acc.length + rows.length := by
  induction rows with
  | nil =>
    intro acc i h
    rcases h with h | ⟨r, hr, _⟩
    · simp at h
    · simp at hr
  | cons r rest ih =>
    intro acc i h
    simp only [extractGo, List.length_cons]
    by_cases hk : r.name ∈ keysOf acc
    · have h1 := extractGo_length_le rest (upsert acc r.name (rowToColumn r (i + 1))) (i + 1)
      have h2 : (upsert acc r.name (rowToColumn r (i + 1))).length = acc.length := by
        rw [length_upsert, if_pos hk]
      omega
    · have h2 : (upsert acc r.name (rowToColumn r (i + 1))).length = acc.length + 1 := by
        rw [length_upsert, if_neg hk]
      have hkeys : keysOf (upsert acc r.name (rowToColumn r (i + 1))) = keysOf acc ++ [r.name] := by
        rw [keysOf_upsert, if_neg hk]
      have hcond : ¬ (rest.map SourceRow.name).Nodup ∨
          ∃ q ∈ rest, q.name ∈ keysOf (upsert acc r.name (rowToColumn r (i + 1))) := by
        rcases h with h | ⟨q, hq, hqk⟩
        · by_cases hnd : (rest.map SourceRow.name).Nodup
          · have hmem : r.name ∈ rest.map SourceRow.name := by
              by_contra hmem
              exact h (by rw [List.map_cons, List.nodup_cons]; exact ⟨hmem, hnd⟩)
            obtain ⟨q, hq, hqn⟩ := List.mem_map.mp hmem
            refine Or.inr ⟨q, hq, ?_⟩
            rw [hkeys, hqn]
            exact List.mem_append_right _ (List.mem_singleton_self _)
          · exact Or.inl hnd
        · rcases List.mem_cons.mp hq with hq' | hq'
          · subst hq'
            exact absurd hqk hk
          · refine Or.inr ⟨q, hq', ?_⟩
            rw [hkeys]
            exact List.mem_append_left _ hqk
      have h1 := ih (upsert acc r.name (rowToColumn r (i + 1))) (i + 1) hcond
      omega

/-- Extraction preserves key uniqueness of the accumulator. -/
theorem extractGo_nodup (rows : List SourceRow) :
    ∀ (acc : List (String × MagiTableColumn)) (i : Nat),
      (keysOf acc).Nodup → (keysOf (extractGo acc i rows)).Nodup := by
  induction rows with
  | nil =>
    intro acc i h
    exact h
  | cons r rest ih =>
    intro acc i h
    exact ih _ _ (nodup_keysOf_upsert h)

/-- On a nonempty row list the extraction result holds an entry whose ordinal
    is the overall position of the last row. -/
theorem extractGo_last_no (rows : List SourceRow) :
    ∀ (acc : List (String × MagiTableColumn)) (i : Nat), rows ≠ [] →
      ∃ p ∈ extractGo acc i rows, p.2.no = some (i + rows.length) := by
  induction rows with
  | nil =>
    intro acc i h
    exact absurd rfl h
  | cons r rest ih =>
    intro acc i _
    cases rest with
    | nil =>
      exact ⟨(r.name, rowToColumn r (i + 1)), mem_upsert_self acc _ _, rfl⟩
    | cons r2 rest2 =>
      obtain ⟨p, hp, hno⟩ :=
        ih (upsert acc r.name (rowToColumn r (i + 1))) (i + 1) (by simp)
      refine ⟨p, hp, ?_⟩
      rw [hno]
      simp only [Option.some.injEq, List.length_cons]
      omega

/-- Lookup after extraction prefers the column built from the last row bearing
    the key, falling back to the accumulator. -/
theorem extractGo_lookup (rows : List SourceRow) :
    ∀ (acc : List (String × MagiTableColumn)) (i : Nat) (k : String),
      lookupCol (extractGo acc i rows) k =
        (columnFromLastRow i rows k).or (lookupCol acc k) := by
  induction rows with
  | nil =>
    intro acc i k
    simp [extractGo, columnFromLastRow]
  | cons r rest ih =>
    intro acc i k
    simp only [extractGo, columnFromLastRow]
    rw [ih]
    cases hB : columnFromLastRow (i + 1) rest k with
    | some c => simp
    | none =>
      by_cases hk : r.name = k
      · subst hk
        rw [lookupCol_upsert_self]
        simp
      · rw [lookupCol_upsert_ne _ _ _ _ (Ne.symm hk)]
        simp [hk]

/-- C10: a duplicated column name in the listing rows never makes the factory
    fail: the produced mapping has strictly fewer entries than listing rows,
    its keys are still unique, lookup of any name yields the column built from
    the LAST listing row bearing it (the later row silently replaces the
    earlier), and the surviving ordinals are not a permutation of the
    contiguous sequence 1..N for N the number of surviving columns. -/
theorem C10_duplicate_name_replacement (s : TableConstructState) (k : String)
    (hdup : ¬ (s.columns_view.map SourceRow.name).Nodup) :
    (magi_table_factory s).columns.length < s.columns_view.length ∧
    (keysOf (magi_table_factory s).columns).Nodup ∧
    lookupCol (magi_table_factory s).columns k = columnFromLastRow 0 s.columns_view k ∧
    ¬ ((magi_table_factory s).columns.map (fun p => p.2.no)).Perm
        ((List.range' 1 (magi_table_factory s).columns.length).map some) := by
  have hcols : (magi_table_factory s).columns = extractGo [] 0 s.columns_view := rfl
  refine ⟨?_, ?_, ?_, ?_⟩
  · have := extractGo_length_lt s.columns_view [] 0 (Or.inl hdup)
    simpa using this
  · exact extractGo_nodup s.columns_view [] 0 (by simp [keysOf])
  · rw [hcols, extractGo_lookup]
    simp [lookupCol]
  · intro hperm
    have hne : s.columns_view ≠ [] := by
      intro h
      rw [h] at hdup
      simp at hdup
    obtain ⟨p, hp, hno⟩ := extractGo_last_no s.columns_view [] 0 hne
    have hmem : some (0 + s.columns_view.length) ∈
        (magi_table_factory s).columns.map (fun p => p.2.no) := by
      rw [hcols]
      exact List.mem_map.mpr ⟨p, hp, hno⟩
    have hmem' := hperm.mem_iff.mp hmem
    obtain ⟨j, hj, hje⟩ := List.mem_map.mp hmem'
    have hjlen : j = s.columns_view.length := by
      have := Option.some.inj hje
      omega
    have hjlt := (List.mem_range'_1.mp hj).2
    have hlt : (magi_table_factory s).columns.length < s.columns_view.length := by
      have := extractGo_length_lt s.columns_view [] 0 (Or.inl hdup)
      simpa using this
    omega

/-- Demonstration source state whose listing repeats the column name `a`. -/
def duplicatedSourceState : TableConstructState :=
  { table_name := some "dup_table",
    columns_view :=
      [{ name := "a", data_type := "INTEGER" },
       { name := "b", data_type := "DATE" },
       { name := "a", data_type := "VARCHAR", length := some 20 }] }

/-- C10 witness on the demonstration listing with the duplicated name `a`. -/
theorem C10_duplicate_name_replacement_witness :
    (magi_table_factory duplicatedSourceState).columns.length <
        duplicatedSourceState.columns_view.length ∧
    (keysOf (magi_table_factory duplicatedSourceState).columns).Nodup ∧
    lookupCol (magi_table_factory duplicatedSourceState).columns "a" =
      columnFromLastRow 0 duplicatedSourceState.columns_view "a" ∧
    ¬ ((magi_table_factory duplicatedSourceState).columns.map (fun p => p.2.no)).Perm
        ((List.range' 1 (magi_table_factory duplicatedSourceState).columns.length).map some) :=
  C10_duplicate_name_replacement duplicatedSourceState "a" (by decide)

end MagiKit
